import Mathlib

/-!
Screen recorder controller: model and verified properties.

A shallow embedding of `ScreenRecorder` (projects/11-screen-recorder,
`include/screen_recorder.h` and `src/screen_recorder.cpp`).

* Pointers are `Option Handle`; `none` is `nullptr`.
* A `std::string` handed to GStreamer through `c_str()` arrives as `c_str s`,
  its characters before the first NUL.
* The two `std::function` callbacks are modelled by whether they hold a
  callable (`Bool`); invoking one appends an entry to the `trace`.
* Calls into GStreamer append an entry to the same `trace`, in program order,
  so the trace is the complete record of what the controller did to the
  outside world.  What GStreamer answers is given to each operation as an
  argument.
* A callback does not call back into the controller's mutating members; the
  callbacks installed by `RecorderApplication::initialize` only update the
  GUI and read `get_settings()`.
-/

namespace ScreenRecorder

/-- The type `enum class State` of the header. -/
inductive State where
  | IDLE
  | INITIALIZING
  | RECORDING
  | STOPPING
  | ERROR
deriving DecidableEq, Repr

/-- The type `struct Settings` of the header. -/
structure Settings where
  output_filename : String
  bitrate : Int := 2000
  show_cursor : Bool := true
deriving DecidableEq, Repr

/-- A non-null `GstElement *`. -/
abbrev Handle := Nat

/-- The two `GstState` values the controller requests. -/
inductive GstState where
  | GST_STATE_NULL
  | GST_STATE_PLAYING
deriving DecidableEq, Repr

/-- The type `GstStateChangeReturn`. -/
inductive GstStateChangeReturn where
  | GST_STATE_CHANGE_FAILURE
  | GST_STATE_CHANGE_SUCCESS
  | GST_STATE_CHANGE_ASYNC
  | GST_STATE_CHANGE_NO_PREROLL
deriving DecidableEq, Repr

/-- A property value handed to `g_object_set`. -/
inductive GValue where
  | bool (b : Bool)
  | int (i : Int)
  | str (s : String)
deriving DecidableEq, Repr

/-- One externally visible action of the controller: a call into GStreamer or
an invocation of a registered callback. -/
inductive Effect where
  | gst_pipeline_new (name : String) (result : Option Handle)
  | gst_element_factory_make (factory : String) (name : String) (result : Option Handle)
  | g_object_set (object : Handle) (properties : List (String × GValue))
  | gst_bin_add_many (bin : Handle) (elements : List Handle)
  | gst_element_link_many (elements : List Handle) (result : Bool)
  | gst_element_get_bus (pipeline : Handle)
  | gst_bus_add_watch (pipeline : Handle)
  | gst_bus_unref (pipeline : Handle)
  | gst_element_set_state (pipeline : Option Handle) (state : GstState)
  | gst_element_send_event_eos (pipeline : Option Handle)
  | gst_object_unref (pipeline : Handle)
  | error_callback (error_message : String)
  | state_callback (new_state : State)
deriving DecidableEq, Repr

/-- The messages `bus_callback` distinguishes, with what it reads from them. -/
inductive GstMessage where
  | GST_MESSAGE_ERROR (message : String) (debug : Option String)
  | GST_MESSAGE_EOS
  | GST_MESSAGE_STATE_CHANGED (src : Option Handle)
  | OTHER
deriving DecidableEq, Repr

/-- What GStreamer answers during one run of `initialize`: the results of
`gst_pipeline_new`, of the five `gst_element_factory_make` calls and of
`gst_element_link_many`. -/
structure GstAnswers where
  pipeline : Option Handle
  source : Option Handle
  videoconvert : Option Handle
  encoder : Option Handle
  muxer : Option Handle
  filesink : Option Handle
  link : Bool
deriving DecidableEq, Repr

/-- Every call of one `initialize` run succeeds. -/
def GstAnswers.all_succeed (g : GstAnswers) : Prop :=
  g.pipeline.isSome = true ∧ g.source.isSome = true ∧ g.videoconvert.isSome = true ∧
  g.encoder.isSome = true ∧ g.muxer.isSome = true ∧ g.filesink.isSome = true ∧ g.link = true

instance (g : GstAnswers) : Decidable g.all_succeed := by
  unfold GstAnswers.all_succeed; infer_instance

end ScreenRecorder

/-- The data members of `class ScreenRecorder`, and the `trace` of effects. -/
structure ScreenRecorder where
  pipeline : Option ScreenRecorder.Handle
  source : Option ScreenRecorder.Handle
  videoconvert : Option ScreenRecorder.Handle
  encoder : Option ScreenRecorder.Handle
  muxer : Option ScreenRecorder.Handle
  filesink : Option ScreenRecorder.Handle
  current_state : ScreenRecorder.State
  current_settings : ScreenRecorder.Settings
  recording_start_time : Nat
  error_callback : Bool
  state_callback : Bool
  trace : List ScreenRecorder.Effect
deriving DecidableEq, Repr

namespace ScreenRecorder

/-- The constructor `ScreenRecorder::ScreenRecorder()`: all pointers null, state
`IDLE`, default settings, no callbacks. -/
def new : ScreenRecorder :=
  { pipeline := none, source := none, videoconvert := none,
    encoder := none, muxer := none, filesink := none,
    current_state := State.IDLE,
    current_settings := { output_filename := "" },
    recording_start_time := 0,
    error_callback := false, state_callback := false,
    trace := [] }

/-- Appends one effect to the trace. -/
def emit (c : ScreenRecorder) (e : Effect) : ScreenRecorder :=
  { c with trace := c.trace ++ [e] }

/-- The setter `set_error_callback`; `callback` tells whether the function
object holds a callable. -/
def set_error_callback (c : ScreenRecorder) (callback : Bool) : ScreenRecorder :=
  { c with error_callback := callback }

/-- The setter `set_state_callback`. -/
def set_state_callback (c : ScreenRecorder) (callback : Bool) : ScreenRecorder :=
  { c with state_callback := callback }

/-- The accessor `get_state`. -/
def get_state (c : ScreenRecorder) : State := c.current_state

/-- The accessor `get_settings`. -/
def get_settings (c : ScreenRecorder) : Settings := c.current_settings

/-- The C string `s.c_str()` as the callee reads it: the characters of `s`
before its first NUL. -/
def c_str (s : String) : String :=
  String.mk (s.data.takeWhile fun ch => ch != Char.ofNat 0)

/-- The statement `if (error_callback) error_callback(msg);`. -/
def report_error (c : ScreenRecorder) (msg : String) : ScreenRecorder :=
  if c.error_callback then c.emit (Effect.error_callback msg) else c

/-- The member `ScreenRecorder::set_state`. -/
def set_state (c : ScreenRecorder) (new_state : State) : ScreenRecorder :=
  if c.current_state ≠ new_state then
    let c := { c with current_state := new_state }
    if c.state_callback then c.emit (Effect.state_callback new_state) else c
  else c

/-- The member `ScreenRecorder::cleanup_pipeline`. -/
def cleanup_pipeline (c : ScreenRecorder) : ScreenRecorder :=
  let c :=
    match c.pipeline with
    | some p =>
      let c := c.emit (Effect.gst_element_set_state (some p) GstState.GST_STATE_NULL)
      let c := c.emit (Effect.gst_object_unref p)
      { c with pipeline := none }
    | none => c
  { c with source := none, videoconvert := none, encoder := none,
           muxer := none, filesink := none }

/-- The member `ScreenRecorder::initialize`; `gst` holds what GStreamer
answers to the calls made here. -/
def initialize_recorder (c : ScreenRecorder) (settings : Settings) (gst : GstAnswers) :
    Bool × ScreenRecorder :=
  if c.current_state ≠ State.IDLE then (false, c)
  else
    let c := set_state c State.INITIALIZING
    let c := { c with current_settings := settings }
    -- Create pipeline
    let c := c.emit (Effect.gst_pipeline_new "screen-recorder-pipeline" gst.pipeline)
    let c := { c with pipeline := gst.pipeline }
    match c.pipeline with
    | none =>
      let c := report_error c "Failed to create GStreamer pipeline"
      let c := set_state c State.ERROR
      (false, c)
    | some pipeline =>
      -- Create elements
      let c := c.emit (Effect.gst_element_factory_make "ximagesrc" "screen-source" gst.source)
      let c := { c with source := gst.source }
      let c := c.emit
        (Effect.gst_element_factory_make "videoconvert" "video-convert" gst.videoconvert)
      let c := { c with videoconvert := gst.videoconvert }
      let c := c.emit (Effect.gst_element_factory_make "x264enc" "video-encoder" gst.encoder)
      let c := { c with encoder := gst.encoder }
      let c := c.emit (Effect.gst_element_factory_make "mp4mux" "muxer" gst.muxer)
      let c := { c with muxer := gst.muxer }
      let c := c.emit (Effect.gst_element_factory_make "filesink" "file-sink" gst.filesink)
      let c := { c with filesink := gst.filesink }
      match c.source, c.videoconvert, c.encoder, c.muxer, c.filesink with
      | some source, some videoconvert, some encoder, some muxer, some filesink =>
        -- Configure elements
        let c := c.emit (Effect.g_object_set source
          [("use-damage", GValue.bool false),
           ("show-pointer", GValue.bool (if settings.show_cursor then true else false))])
        let c := c.emit (Effect.g_object_set encoder
          [("bitrate", GValue.int settings.bitrate),
           ("speed-preset", GValue.int 2),
           ("tune", GValue.int 0x00000004)])
        let c := c.emit (Effect.g_object_set filesink
          [("location", GValue.str (c_str settings.output_filename))])
        -- Add elements to pipeline
        let c := c.emit
          (Effect.gst_bin_add_many pipeline [source, videoconvert, encoder, muxer, filesink])
        -- Link elements
        let c := c.emit
          (Effect.gst_element_link_many [source, videoconvert, encoder, muxer, filesink] gst.link)
        if !gst.link then
          let c := report_error c "Failed to link pipeline elements"
          let c := cleanup_pipeline c
          let c := set_state c State.ERROR
          (false, c)
        else
          -- Set up message bus
          let c := c.emit (Effect.gst_element_get_bus pipeline)
          let c := c.emit (Effect.gst_bus_add_watch pipeline)
          let c := c.emit (Effect.gst_bus_unref pipeline)
          let c := set_state c State.IDLE
          (true, c)
      | _, _, _, _, _ =>
        let c := report_error c
          "Failed to create required GStreamer elements. Please check your GStreamer installation."
        let c := cleanup_pipeline c
        let c := set_state c State.ERROR
        (false, c)

/-- The member `ScreenRecorder::start_recording`; `ret` is what
`gst_element_set_state` answers and `now` is the reading of the steady clock. -/
def start_recording (c : ScreenRecorder) (ret : GstStateChangeReturn) (now : Nat) :
    Bool × ScreenRecorder :=
  if c.current_state ≠ State.IDLE ∨ c.pipeline = none then (false, c)
  else
    let c := c.emit (Effect.gst_element_set_state c.pipeline GstState.GST_STATE_PLAYING)
    if ret = GstStateChangeReturn.GST_STATE_CHANGE_FAILURE then
      let c := report_error c "Failed to start recording pipeline"
      let c := set_state c State.ERROR
      (false, c)
    else
      let c := { c with recording_start_time := now }
      let c := set_state c State.RECORDING
      (true, c)

/-- The member `ScreenRecorder::stop_recording`. -/
def stop_recording (c : ScreenRecorder) : ScreenRecorder :=
  if c.current_state ≠ State.RECORDING ∨ c.pipeline = none then c
  else
    let c := set_state c State.STOPPING
    -- Send EOS event to properly close the file
    c.emit (Effect.gst_element_send_event_eos c.pipeline)

/-- The static member `ScreenRecorder::bus_callback`, applied to the recorder
passed as `user_data`. -/
def bus_callback (c : ScreenRecorder) (message : GstMessage) : Bool × ScreenRecorder :=
  match message with
  | GstMessage.GST_MESSAGE_ERROR error_message _debug =>
    let error_msg := "GStreamer Error: " ++ error_message
    let c := report_error c error_msg
    let c := set_state c State.ERROR
    (true, c)
  | GstMessage.GST_MESSAGE_EOS =>
    -- End of stream reached, recording finished
    let c := c.emit (Effect.gst_element_set_state c.pipeline GstState.GST_STATE_NULL)
    let c := set_state c State.IDLE
    (true, c)
  | GstMessage.GST_MESSAGE_STATE_CHANGED _src => (true, c)
  | GstMessage.OTHER => (true, c)

end ScreenRecorder

namespace ScreenRecorder

/-! ## Reading a trace -/

/-- The states handed to the state callback, in the order of the calls. -/
def notifications (t : List Effect) : List State :=
  t.filterMap fun e =>
    match e with
    | Effect.state_callback s => some s
    | _ => none

/-- The messages handed to the error callback, in the order of the calls. -/
def error_reports (t : List Effect) : List String :=
  t.filterMap fun e =>
    match e with
    | Effect.error_callback msg => some msg
    | _ => none

/-- The end-of-stream events sent, each with the pipeline it was sent to. -/
def eos_requests (t : List Effect) : List (Option Handle) :=
  t.filterMap fun e =>
    match e with
    | Effect.gst_element_send_event_eos p => some p
    | _ => none

/-- The pipelines released with `gst_object_unref`. -/
def released (t : List Effect) : List Handle :=
  t.filterMap fun e =>
    match e with
    | Effect.gst_object_unref p => some p
    | _ => none

/-! ## Reachable controllers -/

/-- The controllers a client can bring about: construction, the two setters,
the three operations with any answers from GStreamer, and any bus message. -/
inductive Reachable : ScreenRecorder → Prop where
  | new : Reachable ScreenRecorder.new
  | set_error_callback (c : ScreenRecorder) (callback : Bool) :
      Reachable c → Reachable (c.set_error_callback callback)
  | set_state_callback (c : ScreenRecorder) (callback : Bool) :
      Reachable c → Reachable (c.set_state_callback callback)
  | initialize_call (c : ScreenRecorder) (settings : Settings) (gst : GstAnswers) :
      Reachable c → Reachable (initialize_recorder c settings gst).2
  | start_recording (c : ScreenRecorder) (ret : GstStateChangeReturn) (now : Nat) :
      Reachable c → Reachable (start_recording c ret now).2
  | stop_recording (c : ScreenRecorder) :
      Reachable c → Reachable (stop_recording c)
  | bus_callback (c : ScreenRecorder) (message : GstMessage) :
      Reachable c → Reachable (bus_callback c message).2

/-! ## Sequences of operations -/

/-- One step a client or the message bus can take on a controller, with the
answers GStreamer gives during it. -/
inductive Op where
  | set_error_callback (callback : Bool)
  | set_state_callback (callback : Bool)
  | initialize_call (settings : Settings) (gst : GstAnswers)
  | start_recording (ret : GstStateChangeReturn) (now : Nat)
  | stop_recording
  | bus_callback (message : GstMessage)
deriving DecidableEq, Repr

/-- The controller after one step. -/
def step (c : ScreenRecorder) (op : Op) : ScreenRecorder :=
  match op with
  | Op.set_error_callback callback => c.set_error_callback callback
  | Op.set_state_callback callback => c.set_state_callback callback
  | Op.initialize_call settings gst => (initialize_recorder c settings gst).2
  | Op.start_recording ret now => (ScreenRecorder.start_recording c ret now).2
  | Op.stop_recording => ScreenRecorder.stop_recording c
  | Op.bus_callback message => (ScreenRecorder.bus_callback c message).2

/-- The controller after a sequence of steps, first step first. -/
def run (c : ScreenRecorder) (ops : List Op) : ScreenRecorder :=
  ops.foldl step c

/-! ## Concrete controllers used as examples -/

/-- The settings of the scenario in the specification. -/
def demo_settings : Settings :=
  { output_filename := "out.mp4", bitrate := 2000, show_cursor := true }

/-- Settings whose filename holds a NUL: `a`, NUL, `b.mp4`. -/
def demo_nul_settings : Settings :=
  { output_filename := String.mk ['a', Char.ofNat 0, 'b', '.', 'm', 'p', '4'],
    bitrate := 2000, show_cursor := true }

/-- Answers in which every GStreamer call succeeds. -/
def demo_answers : GstAnswers :=
  { pipeline := some 1, source := some 2, videoconvert := some 3, encoder := some 4,
    muxer := some 5, filesink := some 6, link := true }

/-- A new controller with both callbacks registered, as the application does. -/
def demo_fresh : ScreenRecorder :=
  (new.set_error_callback true).set_state_callback true

/-- The controller after a successful `initialize`. -/
def demo_idle : ScreenRecorder :=
  (initialize_recorder demo_fresh demo_settings demo_answers).2

/-- The controller after a successful `initialize` and `start_recording`. -/
def demo_recording : ScreenRecorder :=
  (start_recording demo_idle GstStateChangeReturn.GST_STATE_CHANGE_SUCCESS 7).2

/-- The controller after `initialize` failed because the encoder is missing. -/
def demo_error : ScreenRecorder :=
  (initialize_recorder demo_fresh demo_settings { demo_answers with encoder := none }).2

end ScreenRecorder

/-! ## The control surface and the application mediator

A model of `RecorderGUI` (`include/recorder_gui.h`, `src/recorder_gui.cpp`) and
of `RecorderApplication` (`include/recorder_application.h`,
`src/recorder_application.cpp`).

* A widget is modelled by what the program sets on it: the text of the two
  labels and the sensitivity of the four controls.  What GTK answers (the text
  of the filename entry, the value of the spin button, the id of the new
  timer, the clock) is given to each operation as an argument.
* The two callbacks of the recorder are the lambdas installed by
  `RecorderApplication::initialize`; a call of the recorder is followed by the
  delivery, in order, of the callback invocations it appended to the trace.
  The handlers touch only the GUI and read the recorder's settings, which no
  operation changes after its first notification other than `INITIALIZING`,
  a notification that `on_recorder_state_changed` ignores.
-/

namespace RecorderGUI

/-- A call of one of the three status handlers of `RecorderGUI`. -/
inductive Call where
  | on_recording_started
  | on_recording_stopped (saved_filename : String)
  | on_recording_error (error_message : String)
deriving DecidableEq, Repr

end RecorderGUI

/-- The data members of `class RecorderGUI` (widgets by their visible
properties), and the `calls` received by the three status handlers. -/
structure RecorderGUI where
  window : Bool
  start_button_sensitive : Bool
  stop_button_sensitive : Bool
  filename_entry_sensitive : Bool
  bitrate_spin_sensitive : Bool
  status_label : String
  time_label : String
  is_recording : Bool
  recording_start_time : Nat
  timer_id : Nat
  start_callback : Bool
  stop_callback : Bool
  calls : List RecorderGUI.Call
deriving DecidableEq, Repr

namespace RecorderGUI

/-- The constructor `RecorderGUI::RecorderGUI()`; no widget exists yet. -/
def new : RecorderGUI :=
  { window := false,
    start_button_sensitive := true, stop_button_sensitive := true,
    filename_entry_sensitive := true, bitrate_spin_sensitive := true,
    status_label := "", time_label := "",
    is_recording := false, recording_start_time := 0, timer_id := 0,
    start_callback := false, stop_callback := false,
    calls := [] }

/-- The member `RecorderGUI::create_interface`: the window and the widgets are
created, the stop button is made insensitive, the time label reads
`Ready to record` and the status label `Ready`. -/
def create_interface (g : RecorderGUI) : Bool × RecorderGUI :=
  (true, { g with window := true, stop_button_sensitive := false,
                  time_label := "Ready to record", status_label := "Ready" })

/-- The setter `set_start_recording_callback`. -/
def set_start_recording_callback (g : RecorderGUI) (callback : Bool) : RecorderGUI :=
  { g with start_callback := callback }

/-- The setter `set_stop_recording_callback`. -/
def set_stop_recording_callback (g : RecorderGUI) (callback : Bool) : RecorderGUI :=
  { g with stop_callback := callback }

/-- The accessor `get_is_recording`. -/
def get_is_recording (g : RecorderGUI) : Bool := g.is_recording

/-- The member `RecorderGUI::update_status`.  The label is given
`message.c_str()`; the messages that reach it are built from literals, from
C strings of GStreamer and from the text of the filename entry, itself a C
string, so they hold no NUL and the label shows `message`. -/
def update_status (g : RecorderGUI) (message : String) : RecorderGUI :=
  { g with status_label := message }

/-- The member `RecorderGUI::update_ui_for_recording_state`. -/
def update_ui_for_recording_state (g : RecorderGUI) (recording : Bool) : RecorderGUI :=
  { g with start_button_sensitive := !recording,
           stop_button_sensitive := recording,
           filename_entry_sensitive := !recording,
           bitrate_spin_sensitive := !recording }

/-- The statement `if (timer_id > 0) { g_source_remove(timer_id); timer_id = 0; }`. -/
def stop_timer (g : RecorderGUI) : RecorderGUI :=
  if g.timer_id > 0 then { g with timer_id := 0 } else g

/-- The member `RecorderGUI::on_recording_started`; `now` is the reading of the
steady clock and `timer` the id answered by `g_timeout_add`. -/
def on_recording_started (g : RecorderGUI) (now : Nat) (timer : Nat) : RecorderGUI :=
  let g := { g with calls := g.calls ++ [Call.on_recording_started] }
  let g := { g with is_recording := true }
  let g := { g with recording_start_time := now }
  let g := update_ui_for_recording_state g true
  let g := update_status g "Recording in progress..."
  -- Start timer
  { g with timer_id := timer }

/-- The member `RecorderGUI::on_recording_stopped`. -/
def on_recording_stopped (g : RecorderGUI) (saved_filename : String) : RecorderGUI :=
  let g := { g with calls := g.calls ++ [Call.on_recording_stopped saved_filename] }
  let g := { g with is_recording := false }
  -- Stop timer
  let g := stop_timer g
  let g := update_ui_for_recording_state g false
  let g := { g with time_label := "Recording completed" }
  update_status g ("Saved: " ++ saved_filename)

/-- The member `RecorderGUI::on_recording_error`. -/
def on_recording_error (g : RecorderGUI) (error_message : String) : RecorderGUI :=
  let g := { g with calls := g.calls ++ [Call.on_recording_error error_message] }
  let g := { g with is_recording := false }
  let g := stop_timer g
  let g := update_ui_for_recording_state g false
  let g := { g with time_label := "Recording failed" }
  update_status g ("Error: " ++ error_message)

/-- The filenames handed to `on_recording_stopped`, in the order of the calls. -/
def completions (calls : List Call) : List String :=
  calls.filterMap fun k =>
    match k with
    | Call.on_recording_stopped f => some f
    | _ => none

end RecorderGUI

/-- What the outside answers during one `on_start_recording`: GStreamer during
`initialize` and `start_recording`, the two clock readings, and the id of the
timer created by `g_timeout_add`. -/
structure StartAnswers where
  gst : ScreenRecorder.GstAnswers
  ret : ScreenRecorder.GstStateChangeReturn
  now : Nat
  gui_now : Nat
  timer : Nat
deriving DecidableEq, Repr

/-- The data members of `class RecorderApplication`; the two `unique_ptr`
members always hold an object. -/
structure RecorderApplication where
  recorder : ScreenRecorder
  gui : RecorderGUI
  is_initialized : Bool
  gstreamer_initialized : Bool
deriving DecidableEq, Repr

namespace RecorderApplication

/-- The constructor `RecorderApplication::RecorderApplication()`. -/
def new : RecorderApplication :=
  { recorder := ScreenRecorder.new, gui := RecorderGUI.new,
    is_initialized := false, gstreamer_initialized := false }

/-- The member `RecorderApplication::initialize`: creates the interface and
installs the four callbacks. -/
def initialize_application (app : RecorderApplication) : Bool × RecorderApplication :=
  if app.is_initialized then (true, app)
  else
    -- Create GUI
    let r := app.gui.create_interface
    let app := { app with gui := r.2 }
    if !r.1 then (false, app)
    else
      -- Set up callbacks between GUI and recorder
      let app := { app with gui := app.gui.set_start_recording_callback true }
      let app := { app with gui := app.gui.set_stop_recording_callback true }
      -- Set up recorder callbacks
      let app := { app with recorder := app.recorder.set_error_callback true }
      let app := { app with recorder := app.recorder.set_state_callback true }
      let app := { app with is_initialized := true }
      (true, app)

/-- The member `RecorderApplication::on_recorder_error`. -/
def on_recorder_error (app : RecorderApplication) (error_message : String) :
    RecorderApplication :=
  { app with gui := app.gui.on_recording_error error_message }

/-- The member `RecorderApplication::on_recorder_state_changed`. -/
def on_recorder_state_changed (app : RecorderApplication) (new_state : ScreenRecorder.State) :
    RecorderApplication :=
  match new_state with
  | ScreenRecorder.State.IDLE =>
    if app.gui.get_is_recording then
      -- Recording just finished
      let filename := app.recorder.get_settings.output_filename
      { app with gui := app.gui.on_recording_stopped filename }
    else app
  | ScreenRecorder.State.ERROR =>
    { app with gui := app.gui.on_recording_error "Recording failed" }
  | _ => app

/-- The lambda the application installed for one callback invocation of the
recorder; other effects are not the application's concern. -/
def dispatch (app : RecorderApplication) (e : ScreenRecorder.Effect) : RecorderApplication :=
  match e with
  | ScreenRecorder.Effect.error_callback error_message => on_recorder_error app error_message
  | ScreenRecorder.Effect.state_callback new_state => on_recorder_state_changed app new_state
  | _ => app

/-- Delivers to the application, in order, the callback invocations the
recorder has made since it was `before`. -/
def deliver (app : RecorderApplication) (before : ScreenRecorder) : RecorderApplication :=
  (app.recorder.trace.drop before.trace.length).foldl dispatch app

/-- The call `recorder->initialize(settings)` with its callbacks. -/
def recorder_initialize (app : RecorderApplication) (settings : ScreenRecorder.Settings)
    (gst : ScreenRecorder.GstAnswers) : Bool × RecorderApplication :=
  let r := app.recorder.initialize_recorder settings gst
  (r.1, deliver { app with recorder := r.2 } app.recorder)

/-- The call `recorder->start_recording()` with its callbacks. -/
def recorder_start_recording (app : RecorderApplication)
    (ret : ScreenRecorder.GstStateChangeReturn) (now : Nat) : Bool × RecorderApplication :=
  let r := app.recorder.start_recording ret now
  (r.1, deliver { app with recorder := r.2 } app.recorder)

/-- The call `recorder->stop_recording()` with its callbacks. -/
def recorder_stop_recording (app : RecorderApplication) : RecorderApplication :=
  deliver { app with recorder := app.recorder.stop_recording } app.recorder

/-- A message on the pipeline's bus: `ScreenRecorder::bus_callback` runs on the
application's recorder, with its callbacks. -/
def bus_message (app : RecorderApplication) (message : ScreenRecorder.GstMessage) :
    RecorderApplication :=
  deliver { app with recorder := (app.recorder.bus_callback message).2 } app.recorder

/-- The member `RecorderApplication::on_start_recording`. -/
def on_start_recording (app : RecorderApplication) (filename : String) (bitrate : Int)
    (w : StartAnswers) : Bool × RecorderApplication :=
  if app.recorder.get_state ≠ ScreenRecorder.State.IDLE then (false, app)
  else
    -- Create recorder settings
    let settings : ScreenRecorder.Settings :=
      { output_filename := filename, bitrate := bitrate, show_cursor := true }
    -- Initialize and start recording
    let r := recorder_initialize app settings w.gst
    let app := r.2
    if !r.1 then (false, app)
    else
      let r := recorder_start_recording app w.ret w.now
      let app := r.2
      if !r.1 then (false, app)
      else
        -- Notify GUI
        let app := { app with gui := app.gui.on_recording_started w.gui_now w.timer }
        (true, app)

/-- The member `RecorderApplication::on_stop_recording`. -/
def on_stop_recording (app : RecorderApplication) : RecorderApplication :=
  if app.recorder.get_state = ScreenRecorder.State.RECORDING then
    recorder_stop_recording app
  else app

/-- The handler `RecorderGUI::on_start_clicked` of the application's GUI, whose
start callback is the lambda calling `on_start_recording`; `filename` and
`bitrate` are what `get_filename()` and `get_bitrate()` answer. -/
def on_start_clicked (app : RecorderApplication) (filename : String) (bitrate : Int)
    (w : StartAnswers) : RecorderApplication :=
  if filename = "" then
    { app with gui := app.gui.update_status "Please enter a filename" }
  else if app.gui.start_callback then
    let r := on_start_recording app filename bitrate w
    let app := r.2
    if !r.1 then
      { app with gui := app.gui.update_status "Failed to start recording" }
    else app
  else app

/-- The handler `RecorderGUI::on_stop_clicked` of the application's GUI, whose
stop callback is the lambda calling `on_stop_recording`. -/
def on_stop_clicked (app : RecorderApplication) : RecorderApplication :=
  if app.gui.stop_callback then on_stop_recording app else app

/-- The application when its main loop starts: constructed and initialized. -/
def started : RecorderApplication :=
  (initialize_application RecorderApplication.new).2

/-- Answers of the outside in which everything succeeds. -/
def demo_start_answers : StartAnswers :=
  { gst := ScreenRecorder.demo_answers,
    ret := ScreenRecorder.GstStateChangeReturn.GST_STATE_CHANGE_SUCCESS,
    now := 7, gui_now := 8, timer := 1 }

end RecorderApplication

namespace ScreenRecorder

/-! ## Basic facts about the helpers -/

@[simp] theorem emit_trace (c : ScreenRecorder) (e : Effect) :
    (c.emit e).trace = c.trace ++ [e] := rfl

@[simp] theorem emit_current_state (c : ScreenRecorder) (e : Effect) :
    (c.emit e).current_state = c.current_state := rfl

@[simp] theorem emit_pipeline (c : ScreenRecorder) (e : Effect) :
    (c.emit e).pipeline = c.pipeline := rfl

@[simp] theorem emit_state_callback (c : ScreenRecorder) (e : Effect) :
    (c.emit e).state_callback = c.state_callback := rfl

@[simp] theorem emit_error_callback (c : ScreenRecorder) (e : Effect) :
    (c.emit e).error_callback = c.error_callback := rfl

@[simp] theorem set_state_current_state (c : ScreenRecorder) (s : State) :
    (set_state c s).current_state = s := by
  unfold set_state
  by_cases h : c.current_state = s <;> by_cases hc : c.state_callback = true <;> simp [h, hc, emit]

@[simp] theorem set_state_pipeline (c : ScreenRecorder) (s : State) :
    (set_state c s).pipeline = c.pipeline := by
  unfold set_state
  by_cases h : c.current_state = s <;> by_cases hc : c.state_callback = true <;> simp [h, hc, emit]

@[simp] theorem set_state_state_callback (c : ScreenRecorder) (s : State) :
    (set_state c s).state_callback = c.state_callback := by
  unfold set_state
  by_cases h : c.current_state = s <;> by_cases hc : c.state_callback = true <;> simp [h, hc, emit]

@[simp] theorem set_state_error_callback (c : ScreenRecorder) (s : State) :
    (set_state c s).error_callback = c.error_callback := by
  unfold set_state
  by_cases h : c.current_state = s <;> by_cases hc : c.state_callback = true <;> simp [h, hc, emit]

theorem set_state_trace (c : ScreenRecorder) (s : State) :
    (set_state c s).trace =
      c.trace ++ (if c.current_state ≠ s ∧ c.state_callback = true
                  then [Effect.state_callback s] else []) := by
  unfold set_state
  by_cases h : c.current_state = s <;> by_cases hc : c.state_callback = true <;> simp [h, hc, emit]

@[simp] theorem report_error_current_state (c : ScreenRecorder) (msg : String) :
    (report_error c msg).current_state = c.current_state := by
  unfold report_error; by_cases hc : c.error_callback = true <;> simp [hc]

@[simp] theorem report_error_pipeline (c : ScreenRecorder) (msg : String) :
    (report_error c msg).pipeline = c.pipeline := by
  unfold report_error; by_cases hc : c.error_callback = true <;> simp [hc]

@[simp] theorem report_error_state_callback (c : ScreenRecorder) (msg : String) :
    (report_error c msg).state_callback = c.state_callback := by
  unfold report_error; by_cases hc : c.error_callback = true <;> simp [hc]

theorem report_error_trace (c : ScreenRecorder) (msg : String) :
    (report_error c msg).trace =
      c.trace ++ (if c.error_callback = true then [Effect.error_callback msg] else []) := by
  unfold report_error; by_cases hc : c.error_callback = true <;> simp [hc]

@[simp] theorem notifications_append (t u : List Effect) :
    notifications (t ++ u) = notifications t ++ notifications u := by
  simp [notifications]

@[simp] theorem error_reports_append (t u : List Effect) :
    error_reports (t ++ u) = error_reports t ++ error_reports u := by
  simp [error_reports]

@[simp] theorem eos_requests_append (t u : List Effect) :
    eos_requests (t ++ u) = eos_requests t ++ eos_requests u := by
  simp [eos_requests]

/-- The final state of `initialize` is never `RECORDING`. -/
theorem initialize_recorder_not_recording (c : ScreenRecorder) (settings : Settings)
    (gst : GstAnswers) (h : c.current_state ≠ State.RECORDING) :
    (initialize_recorder c settings gst).2.current_state ≠ State.RECORDING := by
  unfold initialize_recorder
  by_cases hs : c.current_state = State.IDLE
  · simp only [hs, ne_eq, not_true_eq_false, if_false]
    split
    · simp
    · split
      · split <;> simp
      · simp
  · simp [hs, h]

/-- In every reachable controller that is `RECORDING`, the pipeline exists. -/
theorem Reachable.recording_has_pipeline {c : ScreenRecorder} (hr : Reachable c) :
    c.current_state = State.RECORDING → c.pipeline ≠ none := by
  induction hr with
  | new => intro h; simp [ScreenRecorder.new] at h
  | set_error_callback c cb _ ih => exact ih
  | set_state_callback c cb _ ih => exact ih
  | initialize_call c settings gst _ ih =>
    intro h
    by_cases hs : c.current_state = State.RECORDING
    · have : initialize_recorder c settings gst = (false, c) := by
        simp [initialize_recorder, hs]
      rw [this]; exact ih hs
    · exact absurd h (initialize_recorder_not_recording c settings gst hs)
  | start_recording c ret now _ ih =>
    unfold ScreenRecorder.start_recording
    by_cases hg : c.current_state ≠ State.IDLE ∨ c.pipeline = none
    · simpa [hg] using ih
    · have hp : c.pipeline ≠ none := fun h => hg (Or.inr h)
      rw [if_neg hg]
      by_cases hret : ret = GstStateChangeReturn.GST_STATE_CHANGE_FAILURE
      · simp [hret]
      · intro _; simpa [hret] using hp
  | stop_recording c _ ih =>
    unfold ScreenRecorder.stop_recording
    by_cases hg : c.current_state ≠ State.RECORDING ∨ c.pipeline = none
    · simpa [hg] using ih
    · rw [if_neg hg]; simp
  | bus_callback c message _ ih =>
    cases message <;> simp [ScreenRecorder.bus_callback] <;> exact ih

end ScreenRecorder

namespace ScreenRecorder

/-- A rejected `initialize` returns false and changes nothing. -/
theorem initialize_rejected_aux (c : ScreenRecorder) (settings : Settings) (gst : GstAnswers)
    (h : c.current_state ≠ State.IDLE) :
    initialize_recorder c settings gst = (false, c) := by
  unfold initialize_recorder
  rw [if_pos h]

/-- A rejected `start_recording` returns false and changes nothing. -/
theorem start_recording_rejected_aux (c : ScreenRecorder) (ret : GstStateChangeReturn)
    (now : Nat) (h : c.current_state ≠ State.IDLE ∨ c.pipeline = none) :
    start_recording c ret now = (false, c) := by
  unfold start_recording
  rw [if_pos h]

/-- One step keeps a controller reachable. -/
theorem Reachable.step {c : ScreenRecorder} (hr : Reachable c) (op : Op) :
    Reachable (ScreenRecorder.step c op) := by
  cases op with
  | set_error_callback callback => exact Reachable.set_error_callback c callback hr
  | set_state_callback callback => exact Reachable.set_state_callback c callback hr
  | initialize_call settings gst => exact Reachable.initialize_call c settings gst hr
  | start_recording ret now => exact Reachable.start_recording c ret now hr
  | stop_recording => exact Reachable.stop_recording c hr
  | bus_callback message => exact Reachable.bus_callback c message hr

/-- A sequence of steps keeps a controller reachable. -/
theorem Reachable.run {c : ScreenRecorder} (hr : Reachable c) (ops : List Op) :
    Reachable (ScreenRecorder.run c ops) := by
  induction ops generalizing c with
  | nil => exact hr
  | cons op ops ih => exact ih (hr.step op)

/-- From `STOPPING` or `ERROR`, a step other than the end-of-stream bus
message ends in `STOPPING` or `ERROR`. -/
theorem step_stays_stopping_or_error (c : ScreenRecorder) (op : Op)
    (hc : c.current_state = State.STOPPING ∨ c.current_state = State.ERROR)
    (hop : op ≠ Op.bus_callback GstMessage.GST_MESSAGE_EOS) :
    (step c op).current_state = State.STOPPING ∨ (step c op).current_state = State.ERROR := by
  have hidle : c.current_state ≠ State.IDLE := by
    rcases hc with h | h <;> rw [h] <;> decide
  have hrec : c.current_state ≠ State.RECORDING := by
    rcases hc with h | h <;> rw [h] <;> decide
  cases op with
  | set_error_callback callback => exact hc
  | set_state_callback callback => exact hc
  | initialize_call settings gst =>
    simp only [step]
    rw [initialize_rejected_aux c settings gst hidle]; exact hc
  | start_recording ret now =>
    simp only [step]
    rw [start_recording_rejected_aux c ret now (Or.inl hidle)]; exact hc
  | stop_recording =>
    simp only [step, ScreenRecorder.stop_recording]
    rw [if_pos (Or.inl hrec)]; exact hc
  | bus_callback message =>
    cases message with
    | GST_MESSAGE_ERROR msg dbg => right; simp [step, ScreenRecorder.bus_callback]
    | GST_MESSAGE_EOS => exact absurd rfl hop
    | GST_MESSAGE_STATE_CHANGED src => simpa [step, ScreenRecorder.bus_callback] using hc
    | OTHER => simpa [step, ScreenRecorder.bus_callback] using hc

/-- From `STOPPING` or `ERROR`, a sequence of steps without an end-of-stream
bus message ends in `STOPPING` or `ERROR`. -/
theorem run_stays_stopping_or_error (ops : List Op) (c : ScreenRecorder)
    (hc : c.current_state = State.STOPPING ∨ c.current_state = State.ERROR)
    (hops : ∀ op ∈ ops, op ≠ Op.bus_callback GstMessage.GST_MESSAGE_EOS) :
    (run c ops).current_state = State.STOPPING ∨ (run c ops).current_state = State.ERROR := by
  induction ops generalizing c with
  | nil => exact hc
  | cons op ops ih =>
    have h1 := step_stays_stopping_or_error c op hc (hops op (List.mem_cons_self op ops))
    exact ih (step c op) h1 (fun o ho => hops o (List.mem_cons_of_mem op ho))

theorem demo_fresh_reachable : Reachable demo_fresh :=
  Reachable.set_state_callback _ true (Reachable.set_error_callback _ true Reachable.new)

theorem demo_idle_reachable : Reachable demo_idle :=
  Reachable.initialize_call _ demo_settings demo_answers demo_fresh_reachable

theorem demo_recording_reachable : Reachable demo_recording :=
  Reachable.start_recording _ GstStateChangeReturn.GST_STATE_CHANGE_SUCCESS 7 demo_idle_reachable

theorem demo_error_reachable : Reachable demo_error :=
  Reachable.initialize_call _ demo_settings { demo_answers with encoder := none }
    demo_fresh_reachable

/-! ## Claims about the accepted and rejected calls -/

/-- C1: from a freshly constructed controller with a registered state listener,
when every GStreamer call succeeds, `initialize(settings)` returns true, then
`start_recording()` returns true, the final state is `RECORDING`, and the
listener has received exactly `INITIALIZING`, `IDLE`, `RECORDING`, in that
order (`INITIALIZING`, `IDLE` when `initialize` returns); the error callback
is never invoked. -/
theorem C1_initialize_then_start (settings : Settings) (gst : GstAnswers)
    (ret : GstStateChangeReturn) (now : Nat) (error_cb : Bool)
    (hgst : gst.all_succeed)
    (hret : ret ≠ GstStateChangeReturn.GST_STATE_CHANGE_FAILURE) :
    (initialize_recorder ((new.set_error_callback error_cb).set_state_callback true)
        settings gst).1 = true ∧
    notifications (initialize_recorder ((new.set_error_callback error_cb).set_state_callback true)
        settings gst).2.trace = [State.INITIALIZING, State.IDLE] ∧
    (start_recording (initialize_recorder
        ((new.set_error_callback error_cb).set_state_callback true) settings gst).2
        ret now).1 = true ∧
    (start_recording (initialize_recorder
        ((new.set_error_callback error_cb).set_state_callback true) settings gst).2
        ret now).2.current_state = State.RECORDING ∧
    notifications (start_recording (initialize_recorder
        ((new.set_error_callback error_cb).set_state_callback true) settings gst).2
        ret now).2.trace = [State.INITIALIZING, State.IDLE, State.RECORDING] ∧
    error_reports (start_recording (initialize_recorder
        ((new.set_error_callback error_cb).set_state_callback true) settings gst).2
        ret now).2.trace = [] := by
  obtain ⟨p, s, v, e, m, f, l⟩ := gst
  obtain ⟨hp, hs, hv, he, hm, hf, hl⟩ := hgst
  simp only at hp hs hv he hm hf hl
  obtain ⟨p, rfl⟩ := Option.isSome_iff_exists.mp hp
  obtain ⟨s, rfl⟩ := Option.isSome_iff_exists.mp hs
  obtain ⟨v, rfl⟩ := Option.isSome_iff_exists.mp hv
  obtain ⟨e, rfl⟩ := Option.isSome_iff_exists.mp he
  obtain ⟨m, rfl⟩ := Option.isSome_iff_exists.mp hm
  obtain ⟨f, rfl⟩ := Option.isSome_iff_exists.mp hf
  subst hl
  simp [initialize_recorder, start_recording, set_state, emit, new, set_error_callback,
    set_state_callback, notifications, error_reports, hret]

/-- Witness for C1: the scenario of the specification. -/
theorem C1_initialize_then_start_witness :
    demo_answers.all_succeed ∧
    (start_recording (initialize_recorder demo_fresh demo_settings demo_answers).2
        GstStateChangeReturn.GST_STATE_CHANGE_ASYNC 7).2.current_state = State.RECORDING ∧
    notifications (start_recording (initialize_recorder demo_fresh demo_settings demo_answers).2
        GstStateChangeReturn.GST_STATE_CHANGE_ASYNC 7).2.trace
      = [State.INITIALIZING, State.IDLE, State.RECORDING] :=
  ⟨by decide,
   (C1_initialize_then_start demo_settings demo_answers
      GstStateChangeReturn.GST_STATE_CHANGE_ASYNC 7 true (by decide) (by decide)).2.2.2.1,
   (C1_initialize_then_start demo_settings demo_answers
      GstStateChangeReturn.GST_STATE_CHANGE_ASYNC 7 true (by decide) (by decide)).2.2.2.2.1⟩

/-- C2: when the state is not `IDLE`, or no pipeline exists, `start_recording()`
returns false and leaves the controller exactly as it was: state, pipeline,
settings, start time and trace (so no callback is invoked and nothing is
requested of the pipeline). -/
theorem C2_start_rejected (c : ScreenRecorder) (ret : GstStateChangeReturn) (now : Nat)
    (h : c.current_state ≠ State.IDLE ∨ c.pipeline = none) :
    start_recording c ret now = (false, c) := by
  unfold start_recording
  rw [if_pos h]

/-- Witness for C2. -/
theorem C2_start_rejected_witness :
    start_recording new GstStateChangeReturn.GST_STATE_CHANGE_SUCCESS 5 = (false, new) :=
  C2_start_rejected new GstStateChangeReturn.GST_STATE_CHANGE_SUCCESS 5 (Or.inr rfl)

/-- C4: when the state is not `IDLE`, `initialize(settings)` returns false and
leaves the controller exactly as it was: state, pipeline, stored settings and
trace (so no pipeline is constructed and no callback is invoked). -/
theorem C4_initialize_rejected (c : ScreenRecorder) (settings : Settings) (gst : GstAnswers)
    (h : c.current_state ≠ State.IDLE) :
    initialize_recorder c settings gst = (false, c) := by
  unfold initialize_recorder
  rw [if_pos h]

/-- Witness for C4. -/
theorem C4_initialize_rejected_witness :
    initialize_recorder { new with current_state := State.STOPPING, pipeline := some 1 }
        { output_filename := "b.mp4" }
        { pipeline := some 9, source := some 2, videoconvert := some 3, encoder := some 4,
          muxer := some 5, filesink := some 6, link := true }
      = (false, { new with current_state := State.STOPPING, pipeline := some 1 }) :=
  C4_initialize_rejected { new with current_state := State.STOPPING, pipeline := some 1 }
    { output_filename := "b.mp4" }
    { pipeline := some 9, source := some 2, videoconvert := some 3, encoder := some 4,
      muxer := some 5, filesink := some 6, link := true } (by decide)

end ScreenRecorder

namespace ScreenRecorder

/-! ## Claims about stopping and about bus messages -/

/-- What `stop_recording` does when it is accepted. -/
theorem stop_recording_accepted (c : ScreenRecorder)
    (hs : c.current_state = State.RECORDING) (hp : c.pipeline ≠ none) :
    stop_recording c =
      (set_state c State.STOPPING).emit (Effect.gst_element_send_event_eos c.pipeline) := by
  unfold stop_recording
  have hg : ¬ (c.current_state ≠ State.RECORDING ∨ c.pipeline = none) := by
    simp [hs, hp]
  rw [if_neg hg]
  simp

/-- C3: when the state is not `RECORDING`, `stop_recording()` leaves the
controller exactly as it was (state and trace: no callback, no end-of-stream
request).  From a reachable `RECORDING` controller, the first call moves to
`STOPPING` and sends one end-of-stream request; a second call changes
nothing, so two calls send exactly one request and end in the same
controller as one call. -/
theorem C3_stop_rejected_and_idempotent (c : ScreenRecorder) :
    (c.current_state ≠ State.RECORDING → stop_recording c = c) ∧
    (Reachable c → c.current_state = State.RECORDING →
      (stop_recording c).current_state = State.STOPPING ∧
      stop_recording (stop_recording c) = stop_recording c ∧
      eos_requests (stop_recording c).trace = eos_requests c.trace ++ [c.pipeline] ∧
      eos_requests (stop_recording (stop_recording c)).trace
        = eos_requests c.trace ++ [c.pipeline]) := by
  have hrej : ∀ d : ScreenRecorder, d.current_state ≠ State.RECORDING → stop_recording d = d := by
    intro d hd
    unfold stop_recording
    rw [if_pos (Or.inl hd)]
  refine ⟨hrej c, ?_⟩
  intro hr hs
  have hp := hr.recording_has_pipeline hs
  have hstop := stop_recording_accepted c hs hp
  have hst : (stop_recording c).current_state = State.STOPPING := by
    rw [hstop]; simp
  have hidem : stop_recording (stop_recording c) = stop_recording c :=
    hrej _ (by rw [hst]; decide)
  have heos : eos_requests (stop_recording c).trace = eos_requests c.trace ++ [c.pipeline] := by
    rw [hstop]
    simp only [emit_trace, set_state_trace, eos_requests_append]
    by_cases hcb : c.state_callback = true <;> simp [hs, hcb, eos_requests]
  exact ⟨hst, hidem, heos, by rw [hidem]; exact heos⟩

/-- C5: from a reachable `RECORDING` controller with a state listener,
`stop_recording()` sets the state to `STOPPING`, notifies `STOPPING` once and
sends one end-of-stream request, keeping the pipeline.  After that, no call
and no bus message other than end-of-stream, and no sequence of them, makes
the state `IDLE`.  The end-of-stream bus message then sets the pipeline to
`GST_STATE_NULL`, makes the state `IDLE` and notifies `IDLE` once, still
keeping the pipeline: the listener observes exactly `STOPPING`, `IDLE` for
the stop. -/
theorem C5_stop_then_eos (c : ScreenRecorder) (hr : Reachable c)
    (hs : c.current_state = State.RECORDING) (hcb : c.state_callback = true) :
    c.pipeline ≠ none ∧
    (stop_recording c).current_state = State.STOPPING ∧
    (stop_recording c).pipeline = c.pipeline ∧
    (stop_recording c).trace = c.trace ++
      [Effect.state_callback State.STOPPING, Effect.gst_element_send_event_eos c.pipeline] ∧
    (∀ settings gst,
      (initialize_recorder (stop_recording c) settings gst).2.current_state = State.STOPPING) ∧
    (∀ ret now, (start_recording (stop_recording c) ret now).2.current_state = State.STOPPING) ∧
    (∀ message, message ≠ GstMessage.GST_MESSAGE_EOS →
      (bus_callback (stop_recording c) message).2.current_state ≠ State.IDLE) ∧
    (∀ ops : List Op, (∀ op ∈ ops, op ≠ Op.bus_callback GstMessage.GST_MESSAGE_EOS) →
      (run (stop_recording c) ops).current_state ≠ State.IDLE) ∧
    (bus_callback (stop_recording c) GstMessage.GST_MESSAGE_EOS).2.current_state = State.IDLE ∧
    (bus_callback (stop_recording c) GstMessage.GST_MESSAGE_EOS).2.pipeline = c.pipeline ∧
    (bus_callback (stop_recording c) GstMessage.GST_MESSAGE_EOS).2.trace =
      (stop_recording c).trace ++
        [Effect.gst_element_set_state c.pipeline GstState.GST_STATE_NULL,
         Effect.state_callback State.IDLE] ∧
    notifications (bus_callback (stop_recording c) GstMessage.GST_MESSAGE_EOS).2.trace =
      notifications c.trace ++ [State.STOPPING, State.IDLE] := by
  have hp := hr.recording_has_pipeline hs
  have hstop := stop_recording_accepted c hs hp
  have hst : (stop_recording c).current_state = State.STOPPING := by
    rw [hstop]; simp
  have hpipe : (stop_recording c).pipeline = c.pipeline := by
    rw [hstop]; simp
  have hscb : (stop_recording c).state_callback = true := by
    rw [hstop]; simpa using hcb
  have htr : (stop_recording c).trace = c.trace ++
      [Effect.state_callback State.STOPPING, Effect.gst_element_send_event_eos c.pipeline] := by
    rw [hstop]
    simp [set_state_trace, hs, hcb]
  have heos : (bus_callback (stop_recording c) GstMessage.GST_MESSAGE_EOS).2.trace =
      (stop_recording c).trace ++
        [Effect.gst_element_set_state c.pipeline GstState.GST_STATE_NULL,
         Effect.state_callback State.IDLE] := by
    simp [bus_callback, set_state_trace, hst, hscb, hpipe]
  refine ⟨hp, hst, hpipe, htr, ?_, ?_, ?_, ?_, ?_, ?_, heos, ?_⟩
  · intro settings gst
    rw [initialize_rejected_aux _ settings gst (by rw [hst]; decide)]
    exact hst
  · intro ret now
    rw [start_recording_rejected_aux _ ret now (Or.inl (by rw [hst]; decide))]
    exact hst
  · intro message hm
    cases message with
    | GST_MESSAGE_ERROR msg dbg => simp [bus_callback]
    | GST_MESSAGE_EOS => exact absurd rfl hm
    | GST_MESSAGE_STATE_CHANGED src => simp [bus_callback, hst]
    | OTHER => simp [bus_callback, hst]
  · intro ops hops hidle
    rcases run_stays_stopping_or_error ops _ (Or.inl hst) hops with h | h <;>
      rw [h] at hidle <;> cases hidle
  · simp [bus_callback]
  · simp [bus_callback, hpipe]
  · rw [heos, htr]
    simp [notifications]

/-- C6: for every controller with an error callback and every fatal-error bus
message, the resulting state is `ERROR` and the trace grows by exactly one
error-callback invocation followed, when the state was not already `ERROR`
and a state listener is registered, by the `ERROR` notification: the error
report is made exactly once and precedes the notification. -/
theorem C6_bus_error (c : ScreenRecorder) (message : String) (debug : Option String)
    (hcb : c.error_callback = true) :
    (bus_callback c (GstMessage.GST_MESSAGE_ERROR message debug)).2.current_state
      = State.ERROR ∧
    (bus_callback c (GstMessage.GST_MESSAGE_ERROR message debug)).2.trace =
      c.trace ++ [Effect.error_callback ("GStreamer Error: " ++ message)] ++
        (if c.current_state ≠ State.ERROR ∧ c.state_callback = true
         then [Effect.state_callback State.ERROR] else []) ∧
    (error_reports (bus_callback c (GstMessage.GST_MESSAGE_ERROR message debug)).2.trace).length
      = (error_reports c.trace).length + 1 := by
  have htr : (bus_callback c (GstMessage.GST_MESSAGE_ERROR message debug)).2.trace =
      c.trace ++ [Effect.error_callback ("GStreamer Error: " ++ message)] ++
        (if c.current_state ≠ State.ERROR ∧ c.state_callback = true
         then [Effect.state_callback State.ERROR] else []) := by
    simp [bus_callback, set_state_trace, report_error_trace, hcb]
  refine ⟨by simp [bus_callback], htr, ?_⟩
  rw [htr]
  by_cases h : c.current_state ≠ State.ERROR ∧ c.state_callback = true <;>
    simp [h, error_reports]

end ScreenRecorder

namespace ScreenRecorder

/-! ## Witnesses for the stop and bus-message claims -/

/-- Witness for C3: a rejected stop on the new controller, and two stops from
the example `RECORDING` controller. -/
theorem C3_stop_rejected_and_idempotent_witness :
    stop_recording new = new ∧
    (demo_recording.current_state = State.RECORDING ∧
      stop_recording (stop_recording demo_recording) = stop_recording demo_recording ∧
      eos_requests (stop_recording (stop_recording demo_recording)).trace
        = eos_requests demo_recording.trace ++ [demo_recording.pipeline]) :=
  ⟨(C3_stop_rejected_and_idempotent new).1 (by decide),
   by decide,
   ((C3_stop_rejected_and_idempotent demo_recording).2 demo_recording_reachable
      (by decide)).2.1,
   ((C3_stop_rejected_and_idempotent demo_recording).2 demo_recording_reachable
      (by decide)).2.2.2⟩

/-- Witness for C5 at the example `RECORDING` controller. -/
theorem C5_stop_then_eos_witness :
    demo_recording.current_state = State.RECORDING ∧
    demo_recording.state_callback = true ∧
    notifications
        (bus_callback (stop_recording demo_recording) GstMessage.GST_MESSAGE_EOS).2.trace =
      notifications demo_recording.trace ++ [State.STOPPING, State.IDLE] :=
  ⟨by decide, by decide,
   (C5_stop_then_eos demo_recording demo_recording_reachable (by decide)
      (by decide)).2.2.2.2.2.2.2.2.2.2.2⟩

/-- Witness for C6 at the example `RECORDING` controller. -/
theorem C6_bus_error_witness :
    demo_recording.error_callback = true ∧
    (bus_callback demo_recording
        (GstMessage.GST_MESSAGE_ERROR "Internal data stream error." none)).2.current_state
      = State.ERROR :=
  ⟨by decide,
   (C6_bus_error demo_recording "Internal data stream error." none (by decide)).1⟩

end ScreenRecorder

namespace ScreenRecorder

/-! ## Claims about the `ERROR` state -/

theorem set_state_eq (c : ScreenRecorder) (s : State) :
    set_state c s =
      { c with current_state := s,
               trace := c.trace ++ (if c.current_state ≠ s ∧ c.state_callback = true
                  then [Effect.state_callback s] else []) } := by
  unfold set_state
  by_cases h : c.current_state = s <;> by_cases hc : c.state_callback = true <;>
    simp [h, hc, emit]
  all_goals (cases c; simp_all)

theorem report_error_eq (c : ScreenRecorder) (msg : String) :
    report_error c msg =
      { c with trace := c.trace ++
          (if c.error_callback = true then [Effect.error_callback msg] else []) } := by
  unfold report_error
  by_cases hc : c.error_callback = true <;> simp [hc, emit]
  cases c; simp_all

theorem cleanup_pipeline_eq (c : ScreenRecorder) :
    cleanup_pipeline c =
      { c with pipeline := none, source := none, videoconvert := none, encoder := none,
               muxer := none, filesink := none,
               trace := c.trace ++
                 (match c.pipeline with
                  | some p => [Effect.gst_element_set_state (some p) GstState.GST_STATE_NULL,
                               Effect.gst_object_unref p]
                  | none => []) } := by
  unfold cleanup_pipeline
  cases h : c.pipeline <;> simp [emit, h]

/-- When `initialize` runs from `IDLE`, the pipeline is created, and an element
is missing or linking fails, the failure branch releases everything: the call
returns false in state `ERROR` with the pipeline handle and the five stage
handles null, and the created pipeline is passed to `gst_object_unref`. -/
theorem initialize_assembly_failure_releases (c : ScreenRecorder) (settings : Settings)
    (gst : GstAnswers) (p : Handle) (hs : c.current_state = State.IDLE)
    (hp : gst.pipeline = some p)
    (hfail : gst.source = none ∨ gst.videoconvert = none ∨ gst.encoder = none ∨
      gst.muxer = none ∨ gst.filesink = none ∨ gst.link = false) :
    (initialize_recorder c settings gst).1 = false ∧
    (initialize_recorder c settings gst).2.current_state = State.ERROR ∧
    (initialize_recorder c settings gst).2.pipeline = none ∧
    (initialize_recorder c settings gst).2.source = none ∧
    (initialize_recorder c settings gst).2.videoconvert = none ∧
    (initialize_recorder c settings gst).2.encoder = none ∧
    (initialize_recorder c settings gst).2.muxer = none ∧
    (initialize_recorder c settings gst).2.filesink = none ∧
    Effect.gst_object_unref p ∈ (initialize_recorder c settings gst).2.trace := by
  obtain ⟨gp, gs, gv, ge, gm, gf, gl⟩ := gst
  simp only at hp hfail
  subst hp
  cases gs <;> cases gv <;> cases ge <;> cases gm <;> cases gf <;> cases gl <;>
    first
    | (exfalso; simp at hfail; done)
    | simp [initialize_recorder, hs, set_state_eq, report_error_eq, cleanup_pipeline_eq, emit]

/-- C7, evaluated where it fails: after a successful `initialize`, a failed
`start_recording` leaves the controller in `ERROR` with the pipeline handle
still set and never released; so does a fatal-error bus message that arrives
while `RECORDING`.  Both controllers are reachable. -/
theorem C7_error_keeps_pipeline :
    Reachable (start_recording demo_idle
      GstStateChangeReturn.GST_STATE_CHANGE_FAILURE 7).2 ∧
    (start_recording demo_idle
      GstStateChangeReturn.GST_STATE_CHANGE_FAILURE 7).2.current_state = State.ERROR ∧
    (start_recording demo_idle
      GstStateChangeReturn.GST_STATE_CHANGE_FAILURE 7).2.pipeline = some 1 ∧
    released (start_recording demo_idle
      GstStateChangeReturn.GST_STATE_CHANGE_FAILURE 7).2.trace = [] ∧
    Reachable (bus_callback demo_recording
      (GstMessage.GST_MESSAGE_ERROR "Internal data stream error." none)).2 ∧
    (bus_callback demo_recording
      (GstMessage.GST_MESSAGE_ERROR "Internal data stream error." none)).2.current_state
        = State.ERROR ∧
    (bus_callback demo_recording
      (GstMessage.GST_MESSAGE_ERROR "Internal data stream error." none)).2.pipeline = some 1 ∧
    released (bus_callback demo_recording
      (GstMessage.GST_MESSAGE_ERROR "Internal data stream error." none)).2.trace = [] :=
  ⟨Reachable.start_recording _ _ _ demo_idle_reachable, by decide, by decide, by decide,
   Reachable.bus_callback _ _ demo_recording_reachable, by decide, by decide, by decide⟩

/-- C8 as stated fails: for the bus error with text `disk full` the error
callback receives `GStreamer Error: disk full`, which is not the text. -/
theorem C8_message_unchanged_counterexample :
    demo_recording.error_callback = true ∧
    error_reports (bus_callback demo_recording
        (GstMessage.GST_MESSAGE_ERROR "disk full" none)).2.trace
      = error_reports demo_recording.trace ++ ["GStreamer Error: disk full"] ∧
    ¬ (error_reports (bus_callback demo_recording
        (GstMessage.GST_MESSAGE_ERROR "disk full" none)).2.trace
      = error_reports demo_recording.trace ++ ["disk full"]) := by
  decide

/-- C8, amended: for every fatal-error bus message carrying the text `m`, the
error callback is invoked once, with `GStreamer Error: ` followed by `m`. -/
theorem C8_message_with_label (c : ScreenRecorder) (m : String) (debug : Option String)
    (hcb : c.error_callback = true) :
    error_reports (bus_callback c (GstMessage.GST_MESSAGE_ERROR m debug)).2.trace
      = error_reports c.trace ++ ["GStreamer Error: " ++ m] := by
  simp only [bus_callback, set_state_trace, report_error_trace, hcb, if_true,
    report_error_current_state, report_error_state_callback, error_reports_append]
  by_cases h : c.current_state ≠ State.ERROR ∧ c.state_callback = true <;>
    simp [h, error_reports]

/-- Witness for the amended C8. -/
theorem C8_message_with_label_witness :
    demo_recording.error_callback = true ∧
    error_reports (bus_callback demo_recording
        (GstMessage.GST_MESSAGE_ERROR "disk full" (some "qtmux.c"))).2.trace
      = error_reports demo_recording.trace ++ ["GStreamer Error: " ++ "disk full"] :=
  ⟨by decide, C8_message_with_label demo_recording "disk full" (some "qtmux.c") (by decide)⟩

/-- C9, evaluated where it fails: `initialize` on the `IDLE` controller left by
an earlier successful `initialize`, with `gst_pipeline_new` failing, returns
false in state `ERROR` after one error report, with the pipeline handle null
but the five stage handles still those of the earlier pipeline, which was
never released. -/
theorem C9_pipeline_failure_keeps_stage_handles :
    Reachable demo_idle ∧
    demo_idle.current_state = State.IDLE ∧
    (initialize_recorder demo_idle demo_settings { demo_answers with pipeline := none }).1
      = false ∧
    (initialize_recorder demo_idle demo_settings
      { demo_answers with pipeline := none }).2.current_state = State.ERROR ∧
    error_reports (initialize_recorder demo_idle demo_settings
      { demo_answers with pipeline := none }).2.trace
        = ["Failed to create GStreamer pipeline"] ∧
    (initialize_recorder demo_idle demo_settings
      { demo_answers with pipeline := none }).2.pipeline = none ∧
    (initialize_recorder demo_idle demo_settings
      { demo_answers with pipeline := none }).2.source = some 2 ∧
    (initialize_recorder demo_idle demo_settings
      { demo_answers with pipeline := none }).2.videoconvert = some 3 ∧
    (initialize_recorder demo_idle demo_settings
      { demo_answers with pipeline := none }).2.encoder = some 4 ∧
    (initialize_recorder demo_idle demo_settings
      { demo_answers with pipeline := none }).2.muxer = some 5 ∧
    (initialize_recorder demo_idle demo_settings
      { demo_answers with pipeline := none }).2.filesink = some 6 ∧
    released (initialize_recorder demo_idle demo_settings
      { demo_answers with pipeline := none }).2.trace = [] :=
  ⟨demo_idle_reachable, by decide, by decide, by decide, by decide, by decide, by decide,
   by decide, by decide, by decide, by decide, by decide⟩

/-- C10 as stated fails: in the reachable `ERROR` controller left by a failed
`initialize`, a new `initialize` for which every GStreamer call would succeed
returns false and the state stays `ERROR`. -/
theorem C10_initialize_from_error_counterexample :
    demo_error.current_state = State.ERROR ∧
    demo_answers.all_succeed ∧
    (initialize_recorder demo_error demo_settings demo_answers).1 = false ∧
    (initialize_recorder demo_error demo_settings demo_answers).2.current_state
      = State.ERROR ∧
    (initialize_recorder demo_error demo_settings demo_answers).2.pipeline = none := by
  decide

/-- C10, amended: in state `ERROR`, `initialize(settings)` is rejected whatever
GStreamer would answer: it returns false and leaves the controller as it was,
still in `ERROR`, with no effect on the pipeline and no callback invoked. -/
theorem C10_initialize_from_error_rejected (c : ScreenRecorder) (settings : Settings)
    (gst : GstAnswers) (h : c.current_state = State.ERROR) :
    initialize_recorder c settings gst = (false, c) ∧
    (initialize_recorder c settings gst).2.current_state = State.ERROR := by
  have hne : c.current_state ≠ State.IDLE := by rw [h]; decide
  rw [initialize_rejected_aux c settings gst hne]
  exact ⟨rfl, h⟩

/-- Witness for the amended C10. -/
theorem C10_initialize_from_error_rejected_witness :
    demo_error.current_state = State.ERROR ∧
    initialize_recorder demo_error demo_settings demo_answers = (false, demo_error) :=
  ⟨by decide,
   (C10_initialize_from_error_rejected demo_error demo_settings demo_answers (by decide)).1⟩

end ScreenRecorder

namespace ScreenRecorder

/-! ## Claims about the pipeline configuration and the end-of-stream handler -/

/-- A string without NUL is its own C string. -/
theorem c_str_of_no_nul (s : String) (h : Char.ofNat 0 ∉ s.data) : c_str s = s := by
  have h1 : (s.data.takeWhile fun ch => ch != Char.ofNat 0) = s.data := by
    rw [List.takeWhile_eq_self_iff]
    intro x hx
    simp only [bne_iff_ne, ne_eq]
    intro hx0
    exact h (hx0 ▸ hx)
  unfold c_str
  rw [h1]

/-- C14 as stated fails: for the filename `a`, NUL, `b.mp4`, `initialize`
succeeds and the sink's `location` is set to `a`, not to the filename. -/
theorem C14_location_is_filename_counterexample :
    (initialize_recorder demo_fresh demo_nul_settings demo_answers).1 = true ∧
    Effect.g_object_set 6 [("location", GValue.str "a")] ∈
      (initialize_recorder demo_fresh demo_nul_settings demo_answers).2.trace ∧
    Effect.g_object_set 6 [("location", GValue.str demo_nul_settings.output_filename)] ∉
      (initialize_recorder demo_fresh demo_nul_settings demo_answers).2.trace ∧
    "a" ≠ demo_nul_settings.output_filename := by
  decide

/-- C14, amended: whenever `initialize(s)` returns true, GStreamer answered
every call, and the calls made are exactly: the pipeline and the five elements
are created; the capture element gets `use-damage` false and `show-pointer`
equal to `s.show_cursor`; the encoder gets `bitrate` equal to `s.bitrate`,
`speed-preset` 2 and `tune` 4; the sink gets `location` equal to the C string
of `s.output_filename`, its characters before the first NUL, which is
`s.output_filename` itself when it holds no NUL; the five elements are added
and linked in the order source, videoconvert, encoder, muxer, filesink; the
bus watch is installed.  Afterwards `get_settings()` returns `s`. -/
theorem C14_pipeline_configuration (c : ScreenRecorder) (s : Settings) (gst : GstAnswers)
    (hok : (initialize_recorder c s gst).1 = true) :
    ∃ p src vc enc mux sink,
      gst = { pipeline := some p, source := some src, videoconvert := some vc,
              encoder := some enc, muxer := some mux, filesink := some sink, link := true } ∧
      (initialize_recorder c s gst).2.trace =
        c.trace ++
        (if c.state_callback = true then [Effect.state_callback State.INITIALIZING] else []) ++
        [Effect.gst_pipeline_new "screen-recorder-pipeline" (some p),
         Effect.gst_element_factory_make "ximagesrc" "screen-source" (some src),
         Effect.gst_element_factory_make "videoconvert" "video-convert" (some vc),
         Effect.gst_element_factory_make "x264enc" "video-encoder" (some enc),
         Effect.gst_element_factory_make "mp4mux" "muxer" (some mux),
         Effect.gst_element_factory_make "filesink" "file-sink" (some sink),
         Effect.g_object_set src
           [("use-damage", GValue.bool false), ("show-pointer", GValue.bool s.show_cursor)],
         Effect.g_object_set enc
           [("bitrate", GValue.int s.bitrate), ("speed-preset", GValue.int 2),
            ("tune", GValue.int 4)],
         Effect.g_object_set sink [("location", GValue.str (c_str s.output_filename))],
         Effect.gst_bin_add_many p [src, vc, enc, mux, sink],
         Effect.gst_element_link_many [src, vc, enc, mux, sink] true,
         Effect.gst_element_get_bus p,
         Effect.gst_bus_add_watch p,
         Effect.gst_bus_unref p] ++
        (if c.state_callback = true then [Effect.state_callback State.IDLE] else []) ∧
      (Char.ofNat 0 ∉ s.output_filename.data → c_str s.output_filename = s.output_filename) ∧
      get_settings (initialize_recorder c s gst).2 = s ∧
      (initialize_recorder c s gst).2.pipeline = some p := by
  have hs : c.current_state = State.IDLE := by
    by_contra hne
    rw [initialize_rejected_aux c s gst hne] at hok
    cases hok
  obtain ⟨gp, gs, gv, ge, gm, gf, gl⟩ := gst
  have hall : ∃ p src vc enc mux sink, gp = some p ∧ gs = some src ∧ gv = some vc ∧
      ge = some enc ∧ gm = some mux ∧ gf = some sink ∧ gl = true := by
    cases gp <;> cases gs <;> cases gv <;> cases ge <;> cases gm <;> cases gf <;> cases gl <;>
      first
      | (exfalso
         simp [initialize_recorder, hs, set_state_eq, report_error_eq, cleanup_pipeline_eq,
           emit] at hok
         done)
      | exact ⟨_, _, _, _, _, _, rfl, rfl, rfl, rfl, rfl, rfl, rfl⟩
  obtain ⟨p, src, vc, enc, mux, sink, rfl, rfl, rfl, rfl, rfl, rfl, rfl⟩ := hall
  refine ⟨p, src, vc, enc, mux, sink, rfl, ?_, c_str_of_no_nul s.output_filename, ?_, ?_⟩
  · by_cases hcb : c.state_callback = true <;>
      simp [initialize_recorder, hs, set_state_eq, emit, hcb]
  · simp [initialize_recorder, hs, set_state_eq, emit, get_settings]
  · simp [initialize_recorder, hs, set_state_eq, emit]

/-- Witness for the amended C14: the scenario of the specification. -/
theorem C14_pipeline_configuration_witness :
    (initialize_recorder demo_fresh demo_settings demo_answers).1 = true ∧
    get_settings (initialize_recorder demo_fresh demo_settings demo_answers).2
      = demo_settings ∧
    (Char.ofNat 0 ∉ demo_settings.output_filename.data →
      c_str demo_settings.output_filename = demo_settings.output_filename) :=
  ⟨by decide,
   (C14_pipeline_configuration demo_fresh demo_settings demo_answers (by decide)).elim
     fun _ h => h.elim fun _ h => h.elim fun _ h => h.elim fun _ h => h.elim fun _ h =>
       h.elim fun _ h => h.2.2.2.1,
   (C14_pipeline_configuration demo_fresh demo_settings demo_answers (by decide)).elim
     fun _ h => h.elim fun _ h => h.elim fun _ h => h.elim fun _ h => h.elim fun _ h =>
       h.elim fun _ h => h.2.2.1⟩

/-- C15: for every controller, the end-of-stream bus message asks the pipeline
for `GST_STATE_NULL`, sets the state to `IDLE`, notifies `IDLE` exactly when
the state was not `IDLE` before (and a listener is registered), and keeps the
pipeline handle without releasing it.  Hence, when a pipeline exists,
`start_recording()` is accepted right after it, with no new `initialize`. -/
theorem C15_eos_unconditional (c : ScreenRecorder) :
    (bus_callback c GstMessage.GST_MESSAGE_EOS).2.current_state = State.IDLE ∧
    (bus_callback c GstMessage.GST_MESSAGE_EOS).2.pipeline = c.pipeline ∧
    (bus_callback c GstMessage.GST_MESSAGE_EOS).2.trace =
      c.trace ++ [Effect.gst_element_set_state c.pipeline GstState.GST_STATE_NULL] ++
        (if c.current_state ≠ State.IDLE ∧ c.state_callback = true
         then [Effect.state_callback State.IDLE] else []) ∧
    (c.state_callback = true →
      (notifications (bus_callback c GstMessage.GST_MESSAGE_EOS).2.trace =
          notifications c.trace ++ [State.IDLE] ↔ c.current_state ≠ State.IDLE) ∧
      (notifications (bus_callback c GstMessage.GST_MESSAGE_EOS).2.trace =
          notifications c.trace ↔ c.current_state = State.IDLE)) ∧
    released (bus_callback c GstMessage.GST_MESSAGE_EOS).2.trace = released c.trace ∧
    (c.pipeline ≠ none → ∀ ret now, ret ≠ GstStateChangeReturn.GST_STATE_CHANGE_FAILURE →
      (start_recording (bus_callback c GstMessage.GST_MESSAGE_EOS).2 ret now).1 = true ∧
      (start_recording (bus_callback c GstMessage.GST_MESSAGE_EOS).2 ret now).2.current_state
        = State.RECORDING) := by
  have htr : (bus_callback c GstMessage.GST_MESSAGE_EOS).2.trace =
      c.trace ++ [Effect.gst_element_set_state c.pipeline GstState.GST_STATE_NULL] ++
        (if c.current_state ≠ State.IDLE ∧ c.state_callback = true
         then [Effect.state_callback State.IDLE] else []) := by
    simp [bus_callback, set_state_trace]
  have hst : (bus_callback c GstMessage.GST_MESSAGE_EOS).2.current_state = State.IDLE := by
    simp [bus_callback]
  have hpl : (bus_callback c GstMessage.GST_MESSAGE_EOS).2.pipeline = c.pipeline := by
    simp [bus_callback]
  refine ⟨hst, hpl, htr, ?_, ?_, ?_⟩
  · intro hcb
    rw [htr]
    by_cases h : c.current_state = State.IDLE <;> simp [h, hcb, notifications]
  · rw [htr]
    by_cases h : c.current_state ≠ State.IDLE ∧ c.state_callback = true <;>
      simp [h, released]
  · intro hp ret now hret
    have hg : ¬ ((bus_callback c GstMessage.GST_MESSAGE_EOS).2.current_state ≠ State.IDLE ∨
        (bus_callback c GstMessage.GST_MESSAGE_EOS).2.pipeline = none) := by
      rw [hst, hpl]; simp [hp]
    unfold start_recording
    rw [if_neg hg]
    simp [hret]

/-- Witness for C15: a recording that was stopped and has reached
end-of-stream is started again. -/
theorem C15_eos_unconditional_witness :
    (stop_recording demo_recording).pipeline ≠ none ∧
    (start_recording (bus_callback (stop_recording demo_recording)
        GstMessage.GST_MESSAGE_EOS).2 GstStateChangeReturn.GST_STATE_CHANGE_SUCCESS 9).1
      = true ∧
    (demo_recording.state_callback = true →
      (notifications (bus_callback demo_recording GstMessage.GST_MESSAGE_EOS).2.trace =
          notifications demo_recording.trace ++ [State.IDLE] ↔
        demo_recording.current_state ≠ State.IDLE) ∧
      (notifications (bus_callback demo_recording GstMessage.GST_MESSAGE_EOS).2.trace =
          notifications demo_recording.trace ↔
        demo_recording.current_state = State.IDLE)) :=
  ⟨by decide,
   ((C15_eos_unconditional (stop_recording demo_recording)).2.2.2.2.2 (by decide)
      GstStateChangeReturn.GST_STATE_CHANGE_SUCCESS 9 (by decide)).1,
   (C15_eos_unconditional demo_recording).2.2.2.1⟩

end ScreenRecorder

namespace ScreenRecorder

/-! ## Claim about the listener's view of the state -/

/-- Appending to a change-free list that ends in `cur` a list of changes that
starts from `cur` gives a change-free list with the same end as the changes. -/
theorem changes_append (l delta : List State) (cur : State)
    (hl : List.Chain' (· ≠ ·) l) (hlast : l.getLast? = some cur)
    (hd : List.Chain (· ≠ ·) cur delta) :
    List.Chain' (· ≠ ·) (l ++ delta) ∧
    (l ++ delta).getLast? = (cur :: delta).getLast? := by
  cases delta with
  | nil => simpa using ⟨hl, hlast⟩
  | cons d ds =>
    rw [List.chain_cons] at hd
    constructor
    · rw [List.chain'_append]
      refine ⟨hl, hd.2, ?_⟩
      intro x hx y hy
      rw [hlast] at hx
      simp only [Option.mem_def, Option.some.injEq, List.head?_cons] at hx hy
      subst hx; subst hy
      exact hd.1
    · rw [List.getLast?_append, List.getLast?_cons_cons,
        List.getLast?_eq_getLast (d :: ds) (List.cons_ne_nil d ds)]
      rfl

/-- With a listener, an accepted `initialize` notifies `INITIALIZING` and then
the state it ends in, which is `IDLE` or `ERROR`. -/
theorem initialize_recorder_notifications (c : ScreenRecorder) (settings : Settings)
    (gst : GstAnswers) (hs : c.current_state = State.IDLE) (hcb : c.state_callback = true) :
    (initialize_recorder c settings gst).2.state_callback = true ∧
    ((initialize_recorder c settings gst).2.current_state = State.IDLE ∨
      (initialize_recorder c settings gst).2.current_state = State.ERROR) ∧
    notifications (initialize_recorder c settings gst).2.trace =
      notifications c.trace ++
        [State.INITIALIZING, (initialize_recorder c settings gst).2.current_state] := by
  obtain ⟨gp, gs, gv, ge, gm, gf, gl⟩ := gst
  rcases gp with _ | p
  · by_cases he : c.error_callback = true <;>
      simp [initialize_recorder, hs, hcb, he, set_state_eq, report_error_eq, emit, notifications]
  rcases gs with _ | src
  · by_cases he : c.error_callback = true <;>
      simp [initialize_recorder, hs, hcb, he, set_state_eq, report_error_eq,
        cleanup_pipeline_eq, emit, notifications]
  rcases gv with _ | vc
  · by_cases he : c.error_callback = true <;>
      simp [initialize_recorder, hs, hcb, he, set_state_eq, report_error_eq,
        cleanup_pipeline_eq, emit, notifications]
  rcases ge with _ | enc
  · by_cases he : c.error_callback = true <;>
      simp [initialize_recorder, hs, hcb, he, set_state_eq, report_error_eq,
        cleanup_pipeline_eq, emit, notifications]
  rcases gm with _ | mux
  · by_cases he : c.error_callback = true <;>
      simp [initialize_recorder, hs, hcb, he, set_state_eq, report_error_eq,
        cleanup_pipeline_eq, emit, notifications]
  rcases gf with _ | sink
  · by_cases he : c.error_callback = true <;>
      simp [initialize_recorder, hs, hcb, he, set_state_eq, report_error_eq,
        cleanup_pipeline_eq, emit, notifications]
  cases gl
  · by_cases he : c.error_callback = true <;>
      simp [initialize_recorder, hs, hcb, he, set_state_eq, report_error_eq,
        cleanup_pipeline_eq, emit, notifications]
  · simp [initialize_recorder, hs, hcb, set_state_eq, emit, notifications]

/-- With a listener that stays registered, one step extends the listener's
trace by the changes of state it makes, and by nothing else. -/
theorem step_notifies_changes (c : ScreenRecorder) (op : Op)
    (hcb : c.state_callback = true) (hop : op ≠ Op.set_state_callback false) :
    (step c op).state_callback = true ∧
    ∃ delta, notifications (step c op).trace = notifications c.trace ++ delta ∧
      List.Chain (· ≠ ·) c.current_state delta ∧
      (c.current_state :: delta).getLast? = some (step c op).current_state := by
  cases op with
  | set_error_callback callback =>
    exact ⟨hcb, [], by simp [step, ScreenRecorder.set_error_callback]⟩
  | set_state_callback callback =>
    cases callback with
    | false => exact absurd rfl hop
    | true => exact ⟨rfl, [], by simp [step, ScreenRecorder.set_state_callback]⟩
  | initialize_call settings gst =>
    by_cases hs : c.current_state = State.IDLE
    · obtain ⟨h1, h2, h3⟩ := initialize_recorder_notifications c settings gst hs hcb
      refine ⟨h1, _, h3, ?_, ?_⟩
      · rw [hs]; rcases h2 with h | h <;> rw [h] <;> simp
      · simp [step]
    · simp only [step]
      rw [initialize_rejected_aux c settings gst hs]
      exact ⟨hcb, [], by simp⟩
  | start_recording ret now =>
    simp only [step]
    by_cases hg : c.current_state ≠ State.IDLE ∨ c.pipeline = none
    · rw [start_recording_rejected_aux c ret now hg]
      exact ⟨hcb, [], by simp⟩
    · have hs : c.current_state = State.IDLE := by
        by_contra h; exact hg (Or.inl h)
      unfold ScreenRecorder.start_recording
      rw [if_neg hg]
      by_cases hret : ret = GstStateChangeReturn.GST_STATE_CHANGE_FAILURE
      · refine ⟨by simp [hret, hcb], [State.ERROR], ?_, ?_, ?_⟩
        · by_cases he : c.error_callback = true <;>
            simp [hret, hcb, hs, he, set_state_eq, report_error_eq, emit, notifications]
        · simp [hs]
        · simp [hret]
      · refine ⟨by simp [hret, hcb], [State.RECORDING], ?_, ?_, ?_⟩
        · simp [hret, hcb, hs, set_state_eq, emit, notifications]
        · simp [hs]
        · simp [hret]
  | stop_recording =>
    simp only [step]
    by_cases hg : c.current_state ≠ State.RECORDING ∨ c.pipeline = none
    · unfold ScreenRecorder.stop_recording
      rw [if_pos hg]
      exact ⟨hcb, [], by simp⟩
    · have hs : c.current_state = State.RECORDING := by
        by_contra h; exact hg (Or.inl h)
      unfold ScreenRecorder.stop_recording
      rw [if_neg hg]
      refine ⟨by simp [hcb], [State.STOPPING], ?_, ?_, ?_⟩
      · simp [hcb, hs, set_state_eq, emit, notifications]
      · simp [hs]
      · simp
  | bus_callback message =>
    cases message with
    | GST_MESSAGE_ERROR msg dbg =>
      by_cases hs : c.current_state = State.ERROR
      · refine ⟨by simp [step, ScreenRecorder.bus_callback, hcb], [], ?_, ?_, ?_⟩
        · by_cases he : c.error_callback = true <;>
            simp [step, ScreenRecorder.bus_callback, hcb, hs, he, set_state_eq,
              report_error_eq, emit, notifications]
        · simp
        · simp [step, ScreenRecorder.bus_callback, hs]
      · refine ⟨by simp [step, ScreenRecorder.bus_callback, hcb], [State.ERROR], ?_, ?_, ?_⟩
        · by_cases he : c.error_callback = true <;>
            simp [step, ScreenRecorder.bus_callback, hcb, hs, he, set_state_eq,
              report_error_eq, emit, notifications]
        · simpa using hs
        · simp [step, ScreenRecorder.bus_callback]
    | GST_MESSAGE_EOS =>
      by_cases hs : c.current_state = State.IDLE
      · refine ⟨by simp [step, ScreenRecorder.bus_callback, hcb], [], ?_, ?_, ?_⟩
        · simp [step, ScreenRecorder.bus_callback, hcb, hs, set_state_eq, emit, notifications]
        · simp
        · simp [step, ScreenRecorder.bus_callback, hs]
      · refine ⟨by simp [step, ScreenRecorder.bus_callback, hcb], [State.IDLE], ?_, ?_, ?_⟩
        · simp [step, ScreenRecorder.bus_callback, hcb, hs, set_state_eq, emit, notifications]
        · simpa using hs
        · simp [step, ScreenRecorder.bus_callback]
    | GST_MESSAGE_STATE_CHANGED src =>
      exact ⟨hcb, [], by simp [step, ScreenRecorder.bus_callback]⟩
    | OTHER => exact ⟨hcb, [], by simp [step, ScreenRecorder.bus_callback]⟩

/-- The listener's trace, with the state at registration in front, is free of
repetitions and ends in the current state; this is kept by every sequence of
steps that leaves the listener registered. -/
theorem run_keeps_listener_view (ops : List Op) (c : ScreenRecorder) (s0 : State)
    (hcb : c.state_callback = true)
    (hchain : List.Chain' (· ≠ ·) (s0 :: notifications c.trace))
    (hlast : (s0 :: notifications c.trace).getLast? = some c.current_state)
    (hops : ∀ op ∈ ops, op ≠ Op.set_state_callback false) :
    (run c ops).state_callback = true ∧
    List.Chain' (· ≠ ·) (s0 :: notifications (run c ops).trace) ∧
    (s0 :: notifications (run c ops).trace).getLast? = some (run c ops).current_state := by
  induction ops generalizing c with
  | nil => exact ⟨hcb, hchain, hlast⟩
  | cons op ops ih =>
    obtain ⟨h1, delta, h2, h3, h4⟩ :=
      step_notifies_changes c op hcb (hops op (List.mem_cons_self op ops))
    have h5 := changes_append (s0 :: notifications c.trace) delta c.current_state
      hchain hlast h3
    have hrun : run c (op :: ops) = run (step c op) ops := rfl
    rw [hrun]
    apply ih (step c op) h1
    · rw [h2, ← List.cons_append]; exact h5.1
    · rw [h2, ← List.cons_append, h5.2, h4]
    · exact fun o ho => hops o (List.mem_cons_of_mem op ho)

end ScreenRecorder

namespace RecorderApplication

open ScreenRecorder

/-! ## Claims about the application mediator -/

/-- C12: from the started application, for every non-empty filename `f` and
bitrate `b`, when every GStreamer call succeeds: the start intent `(f, b)` is
accepted and leaves the controller `RECORDING` without any completion
notification (the `IDLE` notification at the end of `initialize` produces
none); the stop intent leaves it `STOPPING`, still without one; the
end-of-stream message then leaves it `IDLE`, and the control surface has
received exactly one `on_recording_stopped`, carrying `f`. -/
theorem C12_end_to_end_completion (f : String) (b : Int) (w : StartAnswers)
    (hf : f ≠ "") (hgst : w.gst.all_succeed)
    (hret : w.ret ≠ GstStateChangeReturn.GST_STATE_CHANGE_FAILURE) :
    (on_start_recording started f b w).1 = true ∧
    on_start_clicked started f b w = (on_start_recording started f b w).2 ∧
    (on_start_clicked started f b w).recorder.current_state = State.RECORDING ∧
    (on_start_clicked started f b w).gui.calls = [RecorderGUI.Call.on_recording_started] ∧
    (on_stop_clicked (on_start_clicked started f b w)).recorder.current_state
      = State.STOPPING ∧
    (on_stop_clicked (on_start_clicked started f b w)).gui.calls
      = [RecorderGUI.Call.on_recording_started] ∧
    (bus_message (on_stop_clicked (on_start_clicked started f b w))
      GstMessage.GST_MESSAGE_EOS).recorder.current_state = State.IDLE ∧
    (bus_message (on_stop_clicked (on_start_clicked started f b w))
      GstMessage.GST_MESSAGE_EOS).gui.calls
      = [RecorderGUI.Call.on_recording_started, RecorderGUI.Call.on_recording_stopped f] ∧
    RecorderGUI.completions (bus_message (on_stop_clicked (on_start_clicked started f b w))
      GstMessage.GST_MESSAGE_EOS).gui.calls = [f] ∧
    (bus_message (on_stop_clicked (on_start_clicked started f b w))
      GstMessage.GST_MESSAGE_EOS).gui.status_label = "Saved: " ++ f := by
  obtain ⟨⟨gp, gs, gv, ge, gm, gf, gl⟩, ret, now, gui_now, timer⟩ := w
  obtain ⟨hp, hs, hv, he, hm, hf', hl⟩ := hgst
  simp only at hp hs hv he hm hf' hl hret
  obtain ⟨p, rfl⟩ := Option.isSome_iff_exists.mp hp
  obtain ⟨s, rfl⟩ := Option.isSome_iff_exists.mp hs
  obtain ⟨v, rfl⟩ := Option.isSome_iff_exists.mp hv
  obtain ⟨e, rfl⟩ := Option.isSome_iff_exists.mp he
  obtain ⟨m, rfl⟩ := Option.isSome_iff_exists.mp hm
  obtain ⟨k, rfl⟩ := Option.isSome_iff_exists.mp hf'
  subst hl
  have hret2 : (ret = GstStateChangeReturn.GST_STATE_CHANGE_FAILURE) = False := by
    simpa using hret
  simp [on_start_clicked, on_start_recording, on_stop_clicked, on_stop_recording, bus_message,
    recorder_initialize, recorder_start_recording, recorder_stop_recording, deliver, dispatch,
    on_recorder_state_changed, on_recorder_error, started, initialize_application,
    RecorderApplication.new, RecorderGUI.new, RecorderGUI.create_interface,
    RecorderGUI.set_start_recording_callback, RecorderGUI.set_stop_recording_callback,
    RecorderGUI.get_is_recording, RecorderGUI.on_recording_started,
    RecorderGUI.on_recording_stopped, RecorderGUI.update_status,
    RecorderGUI.update_ui_for_recording_state, RecorderGUI.stop_timer,
    RecorderGUI.completions,
    ScreenRecorder.new, ScreenRecorder.set_error_callback, ScreenRecorder.set_state_callback,
    get_state, get_settings, initialize_recorder, start_recording, stop_recording, bus_callback,
    set_state, emit, hf, hret2]
  by_cases ht : 0 < timer <;> simp [ht]

/-- Witness for C12: the scenario of the specification. -/
theorem C12_end_to_end_completion_witness :
    ("out.mp4" ≠ "" ∧ demo_start_answers.gst.all_succeed) ∧
    (bus_message (on_stop_clicked (on_start_clicked started "out.mp4" 2000 demo_start_answers))
      GstMessage.GST_MESSAGE_EOS).recorder.current_state = State.IDLE ∧
    RecorderGUI.completions
      (bus_message (on_stop_clicked (on_start_clicked started "out.mp4" 2000 demo_start_answers))
        GstMessage.GST_MESSAGE_EOS).gui.calls = ["out.mp4"] :=
  ⟨by decide,
   (C12_end_to_end_completion "out.mp4" 2000 demo_start_answers (by decide) (by decide)
      (by decide)).2.2.2.2.2.2.1,
   (C12_end_to_end_completion "out.mp4" 2000 demo_start_answers (by decide) (by decide)
      (by decide)).2.2.2.2.2.2.2.2.1⟩

/-- C13, evaluated where it fails.  In each of the three ways into `ERROR` the
controller reports a message `m`, the control surface receives
`on_recording_error(m)` and then `on_recording_error` with the fixed text
`Recording failed` from the `ERROR` notification, and the status label ends as
`Error: Recording failed`, in which `m` does not occur:
an assembly failure (encoder missing), a start failure, and a bus error with
text `disk full` during a recording.  Through the start button the label is
then overwritten once more, with `Failed to start recording`. -/
theorem C13_error_message_overwritten :
    (error_reports (on_start_recording started "out.mp4" 2000
        { demo_start_answers with
          gst := { demo_answers with encoder := none } }).2.recorder.trace
      = ["Failed to create required GStreamer elements. Please check your GStreamer installation."] ∧
     (on_start_recording started "out.mp4" 2000
        { demo_start_answers with
          gst := { demo_answers with encoder := none } }).2.recorder.current_state
      = State.ERROR ∧
     (on_start_recording started "out.mp4" 2000
        { demo_start_answers with
          gst := { demo_answers with encoder := none } }).2.gui.calls
      = [RecorderGUI.Call.on_recording_error
           "Failed to create required GStreamer elements. Please check your GStreamer installation.",
         RecorderGUI.Call.on_recording_error "Recording failed"] ∧
     (on_start_recording started "out.mp4" 2000
        { demo_start_answers with
          gst := { demo_answers with encoder := none } }).2.gui.status_label
      = "Error: Recording failed") ∧
    (error_reports (on_start_recording started "out.mp4" 2000
        { demo_start_answers with
          ret := GstStateChangeReturn.GST_STATE_CHANGE_FAILURE }).2.recorder.trace
      = ["Failed to start recording pipeline"] ∧
     (on_start_recording started "out.mp4" 2000
        { demo_start_answers with
          ret := GstStateChangeReturn.GST_STATE_CHANGE_FAILURE }).2.recorder.current_state
      = State.ERROR ∧
     (on_start_recording started "out.mp4" 2000
        { demo_start_answers with
          ret := GstStateChangeReturn.GST_STATE_CHANGE_FAILURE }).2.gui.calls
      = [RecorderGUI.Call.on_recording_error "Failed to start recording pipeline",
         RecorderGUI.Call.on_recording_error "Recording failed"] ∧
     (on_start_recording started "out.mp4" 2000
        { demo_start_answers with
          ret := GstStateChangeReturn.GST_STATE_CHANGE_FAILURE }).2.gui.status_label
      = "Error: Recording failed" ∧
     ¬ ("Failed to start recording pipeline".data <:+:
        (on_start_recording started "out.mp4" 2000
          { demo_start_answers with
            ret := GstStateChangeReturn.GST_STATE_CHANGE_FAILURE }).2.gui.status_label.data) ∧
     (on_start_clicked started "out.mp4" 2000
        { demo_start_answers with
          ret := GstStateChangeReturn.GST_STATE_CHANGE_FAILURE }).gui.status_label
      = "Failed to start recording") ∧
    (error_reports (bus_message (on_start_clicked started "out.mp4" 2000 demo_start_answers)
        (GstMessage.GST_MESSAGE_ERROR "disk full" none)).recorder.trace
      = ["GStreamer Error: disk full"] ∧
     (bus_message (on_start_clicked started "out.mp4" 2000 demo_start_answers)
        (GstMessage.GST_MESSAGE_ERROR "disk full" none)).recorder.current_state
      = State.ERROR ∧
     (bus_message (on_start_clicked started "out.mp4" 2000 demo_start_answers)
        (GstMessage.GST_MESSAGE_ERROR "disk full" none)).gui.calls
      = [RecorderGUI.Call.on_recording_started,
         RecorderGUI.Call.on_recording_error "GStreamer Error: disk full",
         RecorderGUI.Call.on_recording_error "Recording failed"] ∧
     (bus_message (on_start_clicked started "out.mp4" 2000 demo_start_answers)
        (GstMessage.GST_MESSAGE_ERROR "disk full" none)).gui.status_label
      = "Error: Recording failed" ∧
     ¬ ("GStreamer Error: disk full".data <:+:
        (bus_message (on_start_clicked started "out.mp4" 2000 demo_start_answers)
          (GstMessage.GST_MESSAGE_ERROR "disk full" none)).gui.status_label.data)) := by
  decide

end RecorderApplication
